import Mathlib

/-! Verification of the content-refresh slice of Roo-Code.

Shallow embedding of two source artifacts:

* `src/services/content/ContentManager.ts` — the host-side content
  manager (`getContentPath`, `openContent`, `refreshContent`,
  `updateContent`, `readContent`).  File-system and messaging effects are
  made explicit by threading a `World` record through each operation;
  a raised exception is an `Option FsError` in the result.

* the UI-side React hook `useRefreshableContent` — embedded as a state
  machine `HookState` with explicit events: mounting, message dispatch,
  passage of simulated time, rebinding of the content identifier, and
  unmounting.  A `setTimeout` becomes an entry in `pendingTimers`
  (milliseconds remaining); a `clearTimeout` would remove it.
-/

/-- A Node-style file-system error: a `code` (such as "ENOENT") and a message. -/
structure FsError where
  code : String
  msg : String
deriving DecidableEq, Repr

/-- A message posted from the host to the webview via `postMessageToWebview`.
The slice only ever posts `contentRefreshed` notifications on this channel;
the full state push (`postStateToWebview`) is a separate dependency and is
counted separately in `World.statePushes`. -/
inductive HostMessage where
  | contentRefreshed (contentId : String) (success : Bool)
deriving DecidableEq, Repr

/-- The observable world threaded through the ContentManager operations:
the file system (content by absolute path), an injected per-path failure for
`fs.unlink` (modelling external I/O failures such as EACCES; `none` means
`unlink` behaves normally), and the accumulated effects: webview messages,
count of full state pushes, log lines, editor opens and revert commands. -/
structure World where
  files : String → Option String
  unlinkFault : String → Option FsError
  messages : List HostMessage
  statePushes : Nat
  logs : List String
  editorOpens : List String
  revertCommands : Nat

/-- Effect of `this.log(m)`: append a log line. -/
def World.log (w : World) (m : String) : World :=
  { w with logs := w.logs ++ [m] }

/-- Effect of `fs.writeFile(p, text, "utf-8")`: store `text` at path `p` (always succeeds). -/
def World.writeFile (w : World) (p text : String) : World :=
  { w with files := fun q => if q = p then some text else w.files q }

/-- Effect of `this.postStateToWebview()`: one full state push to the UI layer. -/
def World.postState (w : World) : World :=
  { w with statePushes := w.statePushes + 1 }

/-- Effect of `this.postMessageToWebview(m)`: append `m` to the message channel. -/
def World.postMessage (w : World) (m : HostMessage) : World :=
  { w with messages := w.messages ++ [m] }

/-- Effect of `fs.unlink(p)`: if an external fault is injected for `p` the call raises it;
otherwise an absent file raises ENOENT and a present file is removed. -/
def World.unlink (w : World) (p : String) : Except FsError World :=
  match w.unlinkFault p with
  | some e => .error e
  | none =>
    match w.files p with
    | none => .error { code := "ENOENT", msg := "no such file: " ++ p }
    | some _ => .ok { w with files := fun q => if q = p then none else w.files q }

/-- Node `path.join(a, b)` for the single two-component join the manager performs. -/
def pathJoin (a b : String) : String := a ++ "/" ++ b

/-- JS `String.prototype.trim()`: strip leading and trailing whitespace.
Embedded structurally over the character list so the kernel can evaluate it
(Lean's own `String.trim` is defined by well-founded recursion). -/
def jsTrim (s : String) : String :=
  ⟨((s.data.dropWhile Char.isWhitespace).reverse.dropWhile Char.isWhitespace).reverse⟩

/-- Modelled from the spec: the closed identifier registry
(`GlobalContentIds`, from `shared/globalContentIds`, outside this slice's
source) has the single member `customInstructions`, "an opaque enumerated key
(from a closed, process-wide registry)". -/
def GlobalContentIds.customInstructions : String := "customInstructions"

/-- Modelled from the spec: `GlobalFileNames.customInstructions` (from
`shared/globalFileNames`, outside this slice's source) is the conventional
file name for the customInstructions document ("raw UTF-8 text files named by
convention per identifier").  The claims do not depend on its exact value. -/
def GlobalFileNames.customInstructions : String := "custom_instructions.md"

/-- Modelled from the spec: `safeReadFile` (from `utils/fs`, outside this
slice's source) is the thin read wrapper `readFile(path) -> text | absent`:
it returns the file's content when present and `none` (JS `undefined`) when
the file is absent/unreadable; it never throws. -/
def safeReadFile (w : World) (filePath : String) : Option String :=
  w.files filePath

/-- Source `ContentManager.getContentPath(contentId)`: switch on the identifier;
only `GlobalContentIds.customInstructions` resolves (to
`path.join(settingsDir, GlobalFileNames.customInstructions)`); any other
identifier is logged as unknown and resolves to `undefined`.
`ensureSettingsDirectoryExists` is the external settings-directory provider,
modelled by the `settingsDir` argument. -/
def getContentPath (settingsDir : String) (w : World) (contentId : String) :
    World × Option String :=
  if contentId = GlobalContentIds.customInstructions then
    (w, some (pathJoin settingsDir GlobalFileNames.customInstructions))
  else
    (w.log ("Unknown contentId: " ++ contentId), none)

/-- JS truthiness of `content && content.trim()` in `updateContent`:
true exactly when `content` is present and non-blank after trimming
(an empty string is falsy and also trims to the empty string). -/
def contentTruthyNonBlank (content : Option String) : Bool :=
  match content with
  | none => false
  | some c => !(jsTrim c == "")

/-- Source `ContentManager.updateContent(contentId, content?)`.  Unresolvable id:
log and return (no further effect).  Present non-blank content: write the
trimmed content, log, then push state.  Absent/blank content: `unlink`; an
ENOENT failure is swallowed; any other failure is logged and re-raised
(returned as `some e`) before the state push is reached; otherwise the state
push follows. -/
def updateContent (settingsDir : String) (w : World) (contentId : String)
    (content : Option String) : World × Option FsError :=
  match getContentPath settingsDir w contentId with
  | (w, none) =>
      (w.log ("File path could not be determined for contentId: " ++ contentId), none)
  | (w, some filePath) =>
      if contentTruthyNonBlank content then
        let w := w.writeFile filePath (jsTrim (content.getD ""))
        let w := w.log ("Updated content file: " ++ filePath)
        (w.postState, none)
      else
        match w.unlink filePath with
        | .ok w =>
            let w := w.log ("Deleted content file: " ++ filePath)
            (w.postState, none)
        | .error e =>
            if e.code ≠ "ENOENT" then
              let w := w.log ("Error deleting content file: " ++ e.msg)
              (w, some e)
            else
              (w.postState, none)

/-- Source `ContentManager.readContent(contentId)`:
`filePath ? ((await safeReadFile(filePath)) ?? "") : ""`. -/
def readContent (settingsDir : String) (w : World) (contentId : String) :
    World × String :=
  match getContentPath settingsDir w contentId with
  | (w, none) => (w, "")
  | (w, some filePath) => (w, (safeReadFile w filePath).getD "")

/-- Source `ContentManager.refreshContent(contentId)`: read, write back, then post
`{type: "contentRefreshed", contentId, success: true}`.  If `updateContent`
raises, the exception propagates and the notification is not posted. -/
def refreshContent (settingsDir : String) (w : World) (contentId : String) :
    World × Option FsError :=
  let (w, content) := readContent settingsDir w contentId
  match updateContent settingsDir w contentId (some content) with
  | (w, some e) => (w, some e)
  | (w, none) => (w.postMessage (.contentRefreshed contentId true), none)

/-- Modelled from the spec: `openFile(filePath, { create: true })` (the
editor integration in `integrations/misc/open-file`, outside this slice's
source) "ensures the file exists (creating an empty one if absent) and makes
it the active editor view". -/
def openFile (w : World) (filePath : String) : World :=
  let w :=
    match w.files filePath with
    | some _ => w
    | none => w.writeFile filePath ""
  { w with editorOpens := w.editorOpens ++ [filePath] }

/-- Source `ContentManager.openContent(contentId)`: unresolvable id is logged and
the call returns with no side effect; otherwise `openFile` with create, then
the `workbench.action.files.revert` command (reload from disk). -/
def openContent (settingsDir : String) (w : World) (contentId : String) : World :=
  match getContentPath settingsDir w contentId with
  | (w, none) =>
      w.log ("File path could not be determined for contentId: " ++ contentId)
  | (w, some filePath) =>
      let w := openFile w filePath
      { w with revertCommands := w.revertCommands + 1 }

/-! UI-side refresh coordinator (`useRefreshableContent`). -/

/-- The `event.data` of a webview `MessageEvent` as the hook inspects it:
a `type` tag, a `contentId` and a `success` flag. -/
structure WebviewEvent where
  type : String
  contentId : String
  success : Bool
deriving DecidableEq, Repr

/-- State of one mounted `useRefreshableContent` instance: the bound
content id (the value captured by the current effect's listener), the two
`useState` flags, the multiset of pending `setTimeout` timers (milliseconds
remaining until each fires; the only timer action in this hook is
`setShowRefreshSuccess(false)`), whether the message listener is attached,
whether the component is mounted, and a count of `setState` calls fired
after unmount (React drops these; they are the observable "late mutation"). -/
structure HookState where
  contentId : String
  isRefreshing : Bool
  showRefreshSuccess : Bool
  pendingTimers : List Nat
  listenerActive : Bool
  mounted : Bool
  staleSetCalls : Nat
deriving DecidableEq, Repr

/-- Initial mount of the hook: both flags false, the effect has attached
the message listener, no timers pending. -/
def mountHook (contentId : String) : HookState :=
  { contentId := contentId
    isRefreshing := false
    showRefreshSuccess := false
    pendingTimers := []
    listenerActive := true
    mounted := true
    staleSetCalls := 0 }

/-- The `handleMessage` listener body.  On a `contentRefreshed` message for
the bound id it clears `isRefreshing`; on success it additionally sets
`showRefreshSuccess` and starts a 3000 ms timer.  The source then returns a
`() => clearTimeout(timer)` closure — but `handleMessage` is an event
listener, not a `useEffect` body, so the event dispatcher discards that
return value: the timer stays pending unconditionally, which this embedding
reproduces. -/
def handleMessage (boundId : String) (st : HookState) (m : WebviewEvent) :
    HookState :=
  if m.type = "contentRefreshed" ∧ m.contentId = boundId then
    let st := { st with isRefreshing := false }
    if m.success then
      { st with showRefreshSuccess := true, pendingTimers := st.pendingTimers ++ [3000] }
    else
      st
  else
    st

/-- Delivery of a message event to the window: the listener runs only while
it is attached. -/
def dispatchMessage (st : HookState) (m : WebviewEvent) : HookState :=
  if st.listenerActive then handleMessage st.contentId st m else st

/-- One banner timer expiring: `setShowRefreshSuccess(false)`.  If the
component is already unmounted the `setState` call is dropped by React and
counted as a stale call. -/
def fireBannerTimer (st : HookState) : HookState :=
  if st.mounted then { st with showRefreshSuccess := false }
  else { st with staleSetCalls := st.staleSetCalls + 1 }

/-- Passage of `ms` milliseconds of simulated clock: every pending timer
with at most `ms` remaining fires; the rest have their remaining time
reduced. -/
def elapse (ms : Nat) (st : HookState) : HookState :=
  let fired := st.pendingTimers.filter (fun t => t ≤ ms)
  let rest := (st.pendingTimers.filter (fun t => ms < t)).map (fun t => t - ms)
  fired.foldl (fun s _ => fireBannerTimer s) { st with pendingTimers := rest }

/-- The bound `contentId` prop changes: the effect's cleanup runs
(`removeEventListener` only — the source's cleanup does not touch timers)
and the effect re-runs, attaching a listener that captures the new id.
The `useState` flags and all pending timers survive the rebind. -/
def rebind (st : HookState) (newId : String) : HookState :=
  { st with contentId := newId, listenerActive := true }

/-- The component unmounts: the effect cleanup removes the message listener;
nothing in the source clears pending timers. -/
def unmountHook (st : HookState) : HookState :=
  { st with mounted := false, listenerActive := false }

/-! Concrete worlds and scenarios used by the closed theorems. -/

/-- A world with no files, no injected faults and no effects yet. -/
def emptyWorld : World :=
  { files := fun _ => none
    unlinkFault := fun _ => none
    messages := []
    statePushes := 0
    logs := []
    editorOpens := []
    revertCommands := 0 }

/-- The path the manager resolves for `customInstructions` under the
settings directory "settings". -/
def ciPath : String := pathJoin "settings" GlobalFileNames.customInstructions

/-- A world whose customInstructions document contains `"  hello  \n"`. -/
def helloWorld : World :=
  { emptyWorld with files := fun p => if p = ciPath then some "  hello  \n" else none }

/-- A world whose customInstructions document exists but whose `unlink`
raises EACCES (an injected non-ENOENT I/O failure). -/
def eaccesWorld : World :=
  { emptyWorld with
    files := fun p => if p = ciPath then some "text" else none
    unlinkFault := fun p =>
      if p = ciPath then some { code := "EACCES", msg := "permission denied" } else none }

/-- Coordinator scenario: a mounted instance bound to `customInstructions`
receives a successful refresh notification (banner shown, 3000 ms timer
started). -/
def bannerShown : HookState :=
  dispatchMessage (mountHook "customInstructions")
    { type := "contentRefreshed", contentId := "customInstructions", success := true }

/-- Coordinator scenario continued: 1000 ms pass, then the bound content id
changes to "otherId" (the effect re-runs for the new id). -/
def afterRebind : HookState :=
  rebind (elapse 1000 bannerShown) "otherId"

/-- Coordinator scenario continued: the rebound instance receives a
successful refresh notification for its new id. -/
def secondBanner : HookState :=
  dispatchMessage afterRebind
    { type := "contentRefreshed", contentId := "otherId", success := true }

/-! Effect-preservation lemmas. -/

/-- Logging touches only the log. -/
theorem World.log_messages (w : World) (m : String) : (w.log m).messages = w.messages := rfl

/-- A successful `unlink` changes only the file map. -/
theorem World.unlink_ok_messages (w : World) (p : String) (w' : World)
    (h : w.unlink p = .ok w') : w'.messages = w.messages := by
  unfold World.unlink at h
  split at h
  · exact absurd h (by simp)
  · split at h
    · exact absurd h (by simp)
    · simp only [Except.ok.injEq] at h
      subst h
      rfl

/-- Resolving a path leaves the message channel untouched. -/
theorem getContentPath_messages (s : String) (w : World) (contentId : String) :
    (getContentPath s w contentId).1.messages = w.messages := by
  unfold getContentPath
  split <;> rfl

/-- Reading content leaves the message channel untouched. -/
theorem readContent_messages (s : String) (w : World) (contentId : String) :
    (readContent s w contentId).1.messages = w.messages := by
  unfold readContent
  split
  next w' heq =>
    have h := getContentPath_messages s w contentId
    rw [heq] at h
    exact h
  next w' fp heq =>
    have h := getContentPath_messages s w contentId
    rw [heq] at h
    exact h

/-- Updating content posts no message on the `postMessageToWebview` channel
(it only pushes full state, which is counted separately). -/
theorem updateContent_messages (s : String) (w : World) (contentId : String)
    (content : Option String) :
    (updateContent s w contentId content).1.messages = w.messages := by
  unfold updateContent
  split
  next w' heq =>
    have h := getContentPath_messages s w contentId
    rw [heq] at h
    exact h
  next w' fp heq =>
    have h : w'.messages = w.messages := by
      have h0 := getContentPath_messages s w contentId
      rw [heq] at h0
      exact h0
    split
    · exact h
    · split
      next w'' hunlink =>
        have h2 := World.unlink_ok_messages w' fp w'' hunlink
        simp [World.postState, World.log, h2, h]
      next e hunlink =>
        split
        · exact h
        · exact h

/-- A successful `unlink` removes exactly the target path and changes no
other world component. -/
theorem World.unlink_ok_eq (w : World) (p : String) (w' : World)
    (h : w.unlink p = .ok w') :
    w' = { w with files := fun q => if q = p then none else w.files q } := by
  unfold World.unlink at h
  split at h
  · exact absurd h (by simp)
  · split at h
    · exact absurd h (by simp)
    · simp only [Except.ok.injEq] at h
      exact h.symm

/-- Branch characterization of `updateContent` at the one resolvable
identifier: the `getContentPath` switch resolves and the write/delete
branches remain. -/
theorem updateContent_resolved (s : String) (w : World) (content : Option String) :
    updateContent s w GlobalContentIds.customInstructions content =
      (if contentTruthyNonBlank content then
        (((w.writeFile (pathJoin s GlobalFileNames.customInstructions)
            (jsTrim (content.getD ""))).log
            ("Updated content file: " ++ pathJoin s GlobalFileNames.customInstructions)).postState,
          none)
      else
        match w.unlink (pathJoin s GlobalFileNames.customInstructions) with
        | .ok w' =>
            ((w'.log ("Deleted content file: " ++
              pathJoin s GlobalFileNames.customInstructions)).postState, none)
        | .error e =>
            if e.code ≠ "ENOENT" then
              (w.log ("Error deleting content file: " ++ e.msg), some e)
            else
              (w.postState, none)) := by
  rfl

/-- Deleting the resolvable document when `unlink` has no injected fault
never raises, leaves the file absent, and preserves the fault map. -/
theorem updateContent_delete_ok (s : String) (w : World)
    (hf : w.unlinkFault (pathJoin s GlobalFileNames.customInstructions) = none) :
    (updateContent s w GlobalContentIds.customInstructions none).2 = none ∧
    (updateContent s w GlobalContentIds.customInstructions none).1.files
      (pathJoin s GlobalFileNames.customInstructions) = none ∧
    (updateContent s w GlobalContentIds.customInstructions none).1.unlinkFault =
      w.unlinkFault := by
  rw [updateContent_resolved]
  rw [if_neg (by decide)]
  unfold World.unlink
  rw [hf]
  cases hfile : w.files (pathJoin s GlobalFileNames.customInstructions) with
  | none =>
      dsimp only
      rw [if_neg (by simp)]
      exact ⟨rfl, by simpa [World.postState, World.log] using hfile, rfl⟩
  | some v =>
      dsimp only
      refine ⟨rfl, ?_, rfl⟩
      simp [World.postState, World.log]

/-- C1: the claim says rebinding or unmounting while the success banner is
showing cancels the pending 3000 ms timer, so no state mutation happens
afterwards.  The code instead returns the `clearTimeout` cleanup from the
message event listener, whose return value the dispatcher discards, so the
timer is never cancelled: after a rebind the stale timer is still pending
and on expiry it clears the new binding's banner (a late mutation), and
after an unmount it fires a `setState` on the unmounted component. -/
theorem C1_timer_survives_rebind_and_unmount :
    afterRebind.pendingTimers = [2000] ∧
    (elapse 2000 secondBanner).showRefreshSuccess = false ∧
    (elapse 2000 secondBanner).pendingTimers = [1000] ∧
    (elapse 3000 (unmountHook bannerShown)).staleSetCalls = 1 := by decide

/-- C2: every completing `refreshContent` call appends exactly the
notification `contentRefreshed contentId success:=true`; when the
read/update step raises, the error propagates and nothing is appended, so
no `success:=false` notification is ever emitted. -/
theorem C2_refresh_never_emits_failure (s : String) (w : World) (contentId : String) :
    (refreshContent s w contentId).1.messages =
      w.messages ++
        (if (refreshContent s w contentId).2 = none then
          [HostMessage.contentRefreshed contentId true] else []) := by
  unfold refreshContent
  rcases h1 : readContent s w contentId with ⟨w1, content⟩
  have hm1 : w1.messages = w.messages := by
    have h := readContent_messages s w contentId
    rw [h1] at h
    exact h
  dsimp only
  rcases h2 : updateContent s w1 contentId (some content) with ⟨w2, err⟩
  have hm2 : w2.messages = w1.messages := by
    have h := updateContent_messages s w1 contentId (some content)
    rw [h2] at h
    exact h
  cases err with
  | none => simp [World.postMessage, hm2, hm1]
  | some e => simp [hm2, hm1]

/-- C3: `refreshContent` on the resolvable document containing
`"  hello  \n"` leaves the stored file containing exactly `"hello"` and
emits `contentRefreshed customInstructions success:=true`. -/
theorem C3_refresh_hello_document :
    (refreshContent "settings" helloWorld "customInstructions").1.files ciPath = some "hello" ∧
    (refreshContent "settings" helloWorld "customInstructions").1.messages =
      [HostMessage.contentRefreshed "customInstructions" true] := by decide

/-- C4 counterexample: for an unknown ContentId, `updateContent` returns on
the early no-path branch without issuing any state push, refuting "for
every ContentId ... exactly one full state-push notification". -/
theorem C4_unknown_id_no_state_push :
    (updateContent "settings" emptyWorld "bogusId" (some "x")).1.statePushes ≠
      emptyWorld.statePushes + 1 := by decide

/-- C4 amended: for every ContentId that resolves to a path, any
`updateContent` call that completes without raising issues exactly one full
state-push notification, on the write branch and on the delete branch
alike. -/
theorem C4_state_push_exactly_once (s : String) (w : World) (contentId : String)
    (content : Option String)
    (hid : contentId = GlobalContentIds.customInstructions)
    (hok : (updateContent s w contentId content).2 = none) :
    (updateContent s w contentId content).1.statePushes = w.statePushes + 1 := by
  subst hid
  rw [updateContent_resolved] at hok ⊢
  by_cases hc : contentTruthyNonBlank content = true
  · simp only [hc, if_true]
    rfl
  · rw [if_neg hc] at hok ⊢
    cases hu : w.unlink (pathJoin s GlobalFileNames.customInstructions) with
    | ok w' =>
        have hw := World.unlink_ok_eq w _ w' hu
        subst hw
        rfl
    | error e =>
        rw [hu] at hok
        dsimp only at hok ⊢
        by_cases he : e.code ≠ "ENOENT"
        · rw [if_pos he] at hok
          exact absurd hok (by simp)
        · rw [if_neg he]
          rfl

/-- C4 witness: a concrete resolvable write issues exactly one state push. -/
theorem C4_state_push_witness :
    (updateContent "settings" emptyWorld "customInstructions" (some "hi")).1.statePushes =
      emptyWorld.statePushes + 1 :=
  C4_state_push_exactly_once "settings" emptyWorld "customInstructions" (some "hi") rfl (by decide)

/-- C5: for every ContentId outside the closed registry, `readContent`
returns the empty string and neither `updateContent` nor `openContent`
mutates the file system in any way. -/
theorem C5_unknown_id_no_mutation (s : String) (w : World) (contentId : String)
    (content : Option String)
    (h : contentId ≠ GlobalContentIds.customInstructions) :
    (readContent s w contentId).2 = "" ∧
    (updateContent s w contentId content).1.files = w.files ∧
    (openContent s w contentId).files = w.files := by
  unfold readContent updateContent openContent getContentPath
  simp [h, World.log]

/-- C5 witness: the unknown id "bogusId" on the empty world. -/
theorem C5_unknown_id_witness :
    (readContent "settings" emptyWorld "bogusId").2 = "" ∧
    (updateContent "settings" emptyWorld "bogusId" (some "x")).1.files = emptyWorld.files ∧
    (openContent "settings" emptyWorld "bogusId").files = emptyWorld.files :=
  C5_unknown_id_no_mutation "settings" emptyWorld "bogusId" (some "x") (by decide)

/-- C6: a mounted coordinator with no pending timer that receives
`contentRefreshed` for its bound id with `success:=true` clears
`isRefreshing`, shows the success banner and starts a 3000 ms timer; for
any simulated time strictly below 3000 ms the banner still shows, and at
3000 ms it is reset while every other state component (refreshing flag,
bound id, mount status, stale-call count) is untouched. -/
theorem C6_success_sets_flags_then_expires (st : HookState) (t : Nat)
    (hm : st.mounted = true) (hl : st.listenerActive = true)
    (ht : st.pendingTimers = []) (hlt : t < 3000) :
    let st1 := dispatchMessage st
      { type := "contentRefreshed", contentId := st.contentId, success := true }
    st1.isRefreshing = false ∧
    st1.showRefreshSuccess = true ∧
    st1.pendingTimers = [3000] ∧
    (elapse t st1).showRefreshSuccess = true ∧
    (elapse 3000 st1).showRefreshSuccess = false ∧
    (elapse 3000 st1).isRefreshing = false ∧
    (elapse 3000 st1).contentId = st.contentId ∧
    (elapse 3000 st1).pendingTimers = [] ∧
    (elapse 3000 st1).mounted = true ∧
    (elapse 3000 st1).staleSetCalls = st.staleSetCalls := by
  intro st1
  have hst1 : st1 = { st with isRefreshing := false, showRefreshSuccess := true, pendingTimers := [3000] } := by
    simp [st1, dispatchMessage, handleMessage, hl, ht]
  rw [hst1]
  have h1 : ¬ (3000 ≤ t) := by omega
  refine ⟨rfl, rfl, rfl, ?_, ?_, ?_, ?_, ?_, ?_, ?_⟩ <;>
    simp [elapse, fireBannerTimer, hm, h1]

/-- C6 witness: a freshly mounted instance and the intermediate time 1500 ms. -/
theorem C6_success_witness :
    let st1 := dispatchMessage (mountHook "customInstructions")
      { type := "contentRefreshed", contentId := (mountHook "customInstructions").contentId,
        success := true }
    st1.isRefreshing = false ∧
    st1.showRefreshSuccess = true ∧
    st1.pendingTimers = [3000] ∧
    (elapse 1500 st1).showRefreshSuccess = true ∧
    (elapse 3000 st1).showRefreshSuccess = false ∧
    (elapse 3000 st1).isRefreshing = false ∧
    (elapse 3000 st1).contentId = (mountHook "customInstructions").contentId ∧
    (elapse 3000 st1).pendingTimers = [] ∧
    (elapse 3000 st1).mounted = true ∧
    (elapse 3000 st1).staleSetCalls = (mountHook "customInstructions").staleSetCalls :=
  C6_success_sets_flags_then_expires (mountHook "customInstructions") 1500
    rfl rfl rfl (by decide)

/-- C7: a `contentRefreshed` response whose contentId differs from the
bound one leaves the coordinator state completely unchanged. -/
theorem C7_other_id_ignored (st : HookState) (m : WebviewEvent)
    (h : m.contentId ≠ st.contentId) :
    dispatchMessage st m = st := by
  unfold dispatchMessage handleMessage
  split
  · rw [if_neg]
    intro hc
    exact h hc.2
  · rfl

/-- C7 witness: a response for "otherId" delivered to the instance bound to
"customInstructions" while its banner is showing. -/
theorem C7_other_id_witness :
    dispatchMessage bannerShown
      { type := "contentRefreshed", contentId := "otherId", success := true } = bannerShown :=
  C7_other_id_ignored bannerShown _ (by decide)

/-- C8: writing a non-blank content C to the resolvable id and then reading
it back returns exactly the trimmed form of C. -/
theorem C8_round_trip (s : String) (w : World) (contentId C : String)
    (hid : contentId = GlobalContentIds.customInstructions)
    (hC : jsTrim C ≠ "") :
    (readContent s (updateContent s w contentId (some C)).1 contentId).2 = jsTrim C := by
  subst hid
  rw [updateContent_resolved]
  rw [if_pos (by simp [contentTruthyNonBlank, hC])]
  dsimp only
  unfold readContent getContentPath safeReadFile
  simp [World.postState, World.log, World.writeFile]

/-- C8 witness: the content "  hi  " round-trips to its trimmed form. -/
theorem C8_round_trip_witness :
    (readContent "settings"
      (updateContent "settings" emptyWorld "customInstructions" (some "  hi  ")).1
      "customInstructions").2 = jsTrim "  hi  " :=
  C8_round_trip "settings" emptyWorld "customInstructions" "  hi  " rfl (by decide)

/-- C9: with no external unlink fault, deleting the resolvable document
twice in a row raises on neither call — the second delete hits an absent
file, whose ENOENT failure the code swallows. -/
theorem C9_idempotent_delete (s : String) (w : World) (contentId : String)
    (hid : contentId = GlobalContentIds.customInstructions)
    (hf : w.unlinkFault (pathJoin s GlobalFileNames.customInstructions) = none) :
    (updateContent s w contentId none).2 = none ∧
    (updateContent s (updateContent s w contentId none).1 contentId none).2 = none := by
  subst hid
  obtain ⟨h1, _h2, h3⟩ := updateContent_delete_ok s w hf
  refine ⟨h1, ?_⟩
  have hf2 : (updateContent s w GlobalContentIds.customInstructions none).1.unlinkFault
      (pathJoin s GlobalFileNames.customInstructions) = none := by
    rw [h3]
    exact hf
  exact (updateContent_delete_ok s _ hf2).1

/-- C9 witness: double delete starting from a world where the document
exists. -/
theorem C9_idempotent_delete_witness :
    (updateContent "settings" helloWorld "customInstructions" none).2 = none ∧
    (updateContent "settings"
      (updateContent "settings" helloWorld "customInstructions" none).1
      "customInstructions" none).2 = none :=
  C9_idempotent_delete "settings" helloWorld "customInstructions" rfl (by decide)

/-- C10: when the delete branch's `unlink` raises a non-ENOENT error, the
error is logged and re-raised before the state push is reached: the call
returns the error, the push count is unchanged, exactly the error log line
is appended, and the file map is untouched. -/
theorem C10_delete_fault_skips_push (s : String) (w : World) (contentId : String)
    (content : Option String) (e : FsError)
    (hid : contentId = GlobalContentIds.customInstructions)
    (hb : contentTruthyNonBlank content = false)
    (hf : w.unlinkFault (pathJoin s GlobalFileNames.customInstructions) = some e)
    (he : e.code ≠ "ENOENT") :
    (updateContent s w contentId content).2 = some e ∧
    (updateContent s w contentId content).1.statePushes = w.statePushes ∧
    (updateContent s w contentId content).1.logs =
      w.logs ++ ["Error deleting content file: " ++ e.msg] ∧
    (updateContent s w contentId content).1.files = w.files := by
  subst hid
  rw [updateContent_resolved]
  rw [if_neg (by simp [hb])]
  unfold World.unlink
  rw [hf]
  dsimp only
  rw [if_pos he]
  exact ⟨rfl, rfl, rfl, rfl⟩

/-- C10 witness: an injected EACCES fault on the delete of the resolvable
document. -/
theorem C10_delete_fault_witness :
    (updateContent "settings" eaccesWorld "customInstructions" none).2 =
      some { code := "EACCES", msg := "permission denied" } ∧
    (updateContent "settings" eaccesWorld "customInstructions" none).1.statePushes =
      eaccesWorld.statePushes ∧
    (updateContent "settings" eaccesWorld "customInstructions" none).1.logs =
      eaccesWorld.logs ++ ["Error deleting content file: " ++ "permission denied"] ∧
    (updateContent "settings" eaccesWorld "customInstructions" none).1.files =
      eaccesWorld.files :=
  C10_delete_fault_skips_push "settings" eaccesWorld "customInstructions" none
    { code := "EACCES", msg := "permission denied" } rfl (by decide) (by decide) (by decide)
